import Mathlib

/-!
Verification of the research-and-action workflow server.

Shallow embedding of the core of the repository:
  - `server/routes/api.ts` — the SSE registry (`sseClients`), the publisher
    (`sendSSEUpdate`) and the `POST /research-and-action` handler;
  - `server/services/pica.ts` — `PicaService.getGitHubConnection` and
    `PicaService.createGitHubIssue`.

The two external collaborators (the OpenAI research service and the Pica
HTTP client) are black boxes behind the workflow; their outcomes for the
one request under consideration are supplied as an explicit environment.
An `Except String` value stands for a call that either returns normally or
throws an exception carrying a message.  Timestamps (`Date.now`,
`toISOString`) are elided: no property under consideration mentions them,
and the generated fallback session identifier (the string built from
`Date.now()`) is passed in as the parameter `genSessionId`.
-/

namespace ResearchAction

/-! ## Data model (`server/types/index.ts`, spec section 3) -/

inductive ResearchStatus where
  | pending
  | completed
  | failed
deriving DecidableEq, Repr

structure ResearchResult where
  id : String
  query : String
  findings : String
  status : ResearchStatus
deriving DecidableEq, Repr

structure ResearchQuery where
  query : String
  sessionId : String
deriving DecidableEq, Repr

/-- The platform-specific payload of a successful GitHub-issue action. -/
structure GitHubIssueInfo where
  issueNumber : Nat
  issueUrl : String
  title : String
  repository : String
deriving DecidableEq, Repr

/-- `ActionResult` from `types/index.ts`: `result` and `error` are the two
optional fields, `type` is the action kind tag. -/
structure ActionResult where
  type : String
  platform : String
  success : Bool
  result : Option GitHubIssueInfo
  error : Option String
deriving DecidableEq, Repr

/-- The structured issue content returned by
`openaiService.generateGitHubIssueContent`. -/
structure IssueContent where
  title : String
  body : String
deriving DecidableEq, Repr

structure IssueParams where
  title : String
  body : String
  owner : String
  repo : String
deriving DecidableEq, Repr

/-! ## SSE registry and publisher (`api.ts` lines 9-52)

A `Channel` models one registered SSE response stream.  Node delivers
write failures out of band (the stream emits an error event or returns a
backpressure flag); `Channel.write` therefore returns the new channel
state together with a success flag instead of raising. -/

structure Channel where
  writeOk : Bool
  written : List String
deriving DecidableEq, Repr

def Channel.write (c : Channel) (payload : String) : Channel × Bool :=
  if c.writeOk then ({ c with written := c.written ++ [payload] }, true) else (c, false)

/-- The `sseClients` map, as an association list of session id to channel. -/
abbrev ClientMap := List (String × Channel)

def lookupClient : ClientMap → String → Option Channel
  | [], _ => none
  | (k, c) :: rest, sessionId => if k = sessionId then some c else lookupClient rest sessionId

def setClient : ClientMap → String → Channel → ClientMap
  | [], sessionId, c => [(sessionId, c)]
  | (k, c0) :: rest, sessionId, c =>
      if k = sessionId then (k, c) :: rest else (k, c0) :: setClient rest sessionId c

/-- `sendSSEUpdate` (`api.ts` lines 47-52): look the session up in
`sseClients`; if absent do nothing, otherwise write the serialized payload
to the channel.  The `Except String` result is the exception channel of
the embedding: the function never uses `Except.error`, and the success
flag of `Channel.write` is discarded, exactly as the source discards the
return value of `client.write`. -/
def sendSSEUpdate (clients : ClientMap) (sessionId : String) (payload : String) :
    Except String ClientMap :=
  match lookupClient clients sessionId with
  | none => Except.ok clients
  | some c => Except.ok (setClient clients sessionId (c.write payload).fst)

/-! ## Progress events

The JSON objects passed to `sendSSEUpdate` by the workflow handler,
with the timestamp field elided. -/

inductive EventData where
  | connected (message : String)
  | status (step : String) (message : String)
  | complete (step : String) (message : String) (research : ResearchResult)
      (actions : List ActionResult)
  | error (message : String)
deriving DecidableEq, Repr

def EventData.isTerminal : EventData → Bool
  | .complete _ _ _ _ => true
  | .error _ => true
  | _ => false

/-! ## Pica service (`server/services/pica.ts`) -/

structure ConnectionRow where
  key : String
  platform : String
deriving DecidableEq, Repr

/-- Outcome of the `GET /vault/connections?platform=github` call made by
`getGitHubConnection`: either a row list, or an axios rejection with or
without an HTTP response status. -/
inductive ConnLookupOutcome where
  | rows (rows : List ConnectionRow)
  | failWithStatus (status : Nat)
  | failNoResponse
deriving DecidableEq, Repr

structure GitHubConnection where
  connectionKey : String
  platform : String
deriving DecidableEq, Repr

/-- `PicaService.getGitHubConnection` (`pica.ts` lines 133-172): first row
on success, `null` when there are no rows, the `mcp-fallback` placeholder
on a 401 rejection, `null` on any other rejection. -/
def getGitHubConnection : ConnLookupOutcome → Option GitHubConnection
  | .rows [] => none
  | .rows (r :: _) => some { connectionKey := r.key, platform := r.platform }
  | .failWithStatus s =>
      if s = 401 then some { connectionKey := "mcp-fallback", platform := "github" } else none
  | .failNoResponse => none

/-- An axios rejection as discriminated by the catch block of
`createGitHubIssue`: a response with a status (and the optional
`data.message` plus `statusText`), a request that got no response, or any
other raised error carrying only its message. -/
inductive AxiosFailure where
  | response (status : Nat) (dataMessage : Option String) (statusText : String)
  | requestOnly
  | generic (message : String)
deriving DecidableEq, Repr

structure PostIssueResponse where
  html_url : String
  number : Nat
deriving DecidableEq, Repr

/-- Environment of one `createGitHubIssue` call: the outcome of the
connection lookup and the outcome of the passthrough POST. -/
structure PicaEnv where
  conn : ConnLookupOutcome
  postIssue : IssueParams → Except AxiosFailure PostIssueResponse

/-- The error message computed in the catch block of `createGitHubIssue`
(`pica.ts` lines 256-273).  `data?.message || statusText` falls through to
the status text when `data.message` is absent or empty (JS truthiness). -/
def catchErrorMessage (params : IssueParams) : AxiosFailure → String
  | .response 401 _ _ =>
      "Authentication failed. Please check your Pica API key and GitHub connection."
  | .response 404 _ _ =>
      "Repository " ++ params.owner ++ "/" ++ params.repo ++ " not found or not accessible."
  | .response status dataMessage statusText =>
      "GitHub API error: " ++ toString status ++ " - " ++
        (match dataMessage with
         | some m => if m = "" then statusText else m
         | none => statusText)
  | .requestOnly => "Network error: Unable to reach GitHub API via Pica"
  | .generic message => message

/-- `PicaService.createGitHubIssue` (`pica.ts` lines 174-285).  The body
runs inside a try/catch whose catch always returns a failed
`ActionResult`, so the embedding is a total function.  A missing
connection raises an `Error` that the local catch turns into a failed
result whose `error` is the raised message (the raised error has neither
`response` nor `request`). -/
def createGitHubIssue (env : PicaEnv) (params : IssueParams) : ActionResult :=
  match getGitHubConnection env.conn with
  | none =>
      { type := "github_issue", platform := "github", success := false,
        result := none,
        error := some ("No GitHub connection found. Please connect GitHub in your Pica dashboard at: https://app.picaos.com/connections") }
  | some githubConnection =>
      if githubConnection.connectionKey = "mcp-fallback" then
        { type := "github_issue", platform := "github", success := false,
          result := none,
          error := some ("Pica API authentication issue. Please check your API key at https://app.picaos.com/settings/api-keys and ensure GitHub is connected at https://app.picaos.com/connections") }
      else
        match env.postIssue params with
        | Except.ok resp =>
            { type := "github_issue", platform := "github", success := true,
              result := some { issueNumber := resp.number, issueUrl := resp.html_url,
                               title := params.title,
                               repository := params.owner ++ "/" ++ params.repo },
              error := none }
        | Except.error e =>
            { type := "github_issue", platform := "github", success := false,
              result := none,
              error := some (catchErrorMessage params e) }

/-! ## Repository-descriptor parsing (`api.ts` lines 139-146)

`githubRepo.split("/")` with the one-character separator is embedded at
the character level: `List.splitOn` on the string data has the same
semantics as the JS split for a single-character separator string. -/

def jsSplitSlash (s : String) : List String :=
  (s.data.splitOn '/').map String.mk

/-- `let [owner, repo] = githubRepo.split("/")` followed by the
`if (!repo)` fallback: `repo` is falsy when the split produced no second
part or an empty second part, in which case the owner becomes the
placeholder and the whole descriptor is the repo name. -/
def parseRepo (githubRepo : String) : String × String :=
  let parts := jsSplitSlash githubRepo
  let owner := parts.headD ("")
  match parts.get? 1 with
  | some r => if r = "" then ("your-username", githubRepo) else (owner, r)
  | none => ("your-username", githubRepo)

/-! ## The request handler (`api.ts` lines 55-211) -/

/-- The outcomes of the calls the handler can make, in the order it makes
them.  `initServices` stands for `createOpenAIService()` and
`createPicaService()`, both of which throw when their environment
variables are missing. -/
structure OrchestratorEnv where
  initServices : Except String Unit
  generateResearch : ResearchQuery → Except String ResearchResult
  generateIssueContent : String → String → Except String IssueContent
  pica : PicaEnv

structure RequestBody where
  query : String
  sessionId : Option String
  githubRepo : Option String
deriving DecidableEq, Repr

/-- The derived `summary` object of the success reply (`api.ts` lines
179-187). -/
structure Summary where
  query : String
  researchCompleted : Bool
  actionsExecuted : Nat
  successfulActions : Nat
  githubIssueUrl : Option String
deriving DecidableEq, Repr

/-- The JSON bodies the handler can send, one constructor per `res` call:
the 400 validation reply, the 200 success reply, and the 500 catch-block
reply. -/
inductive Response where
  | badRequest (error : String) (details : String)
  | ok (sessionId : String) (research : ResearchResult) (actions : List ActionResult)
      (summary : Summary)
  | serverError (error : String) (details : String)
deriving DecidableEq, Repr

def Response.statusCode : Response → Nat
  | .badRequest _ _ => 400
  | .ok _ _ _ _ => 200
  | .serverError _ _ => 500

/-- The `success` field of the reply body; the 400 reply has none. -/
def Response.success : Response → Option Bool
  | .badRequest _ _ => none
  | .ok _ _ _ _ => some true
  | .serverError _ _ => some false

def Response.sessionId? : Response → Option String
  | .ok s _ _ _ => some s
  | _ => none

def Response.research? : Response → Option ResearchResult
  | .ok _ r _ _ => some r
  | _ => none

def Response.actions? : Response → Option (List ActionResult)
  | .ok _ _ a _ => some a
  | _ => none

def Response.summary? : Response → Option Summary
  | .ok _ _ _ s => some s
  | _ => none

def Response.details? : Response → Option String
  | .badRequest _ d => some d
  | .serverError _ d => some d
  | _ => none

/-- Which of the three collaborator operations have been invoked. -/
inductive CollabCall where
  | generateResearch
  | generateIssueContent
  | createGitHubIssue
deriving DecidableEq, Repr

/-- Result of one handler run: the reply sent, the `sendSSEUpdate`
invocations in order (session id and event payload), and the collaborator
calls in order. -/
structure HandlerOutcome where
  response : Response
  events : List (String × EventData)
  calls : List CollabCall
deriving Repr

/-- `if (sessionId) sendSSEUpdate(sessionId, e)`: JS truthiness, so both a
missing and an empty session id suppress the publish. -/
def emit (sessionId : Option String) (e : EventData) : List (String × EventData) :=
  match sessionId with
  | some s => if s = "" then [] else [(s, e)]
  | none => []

/-- `sessionId || fallback` (JS: falsy on `undefined` and on `""`). -/
def sessionOr (sessionId : Option String) (fallback : String) : String :=
  match sessionId with
  | some s => if s = "" then fallback else s
  | none => fallback

/-- The `complete` event message (`api.ts` lines 162-164); a JS template
renders an absent `error` field as the text `undefined`. -/
def completionMessage (a : ActionResult) : String :=
  if a.success then "GitHub issue created successfully!"
  else "GitHub issue creation failed: " ++ a.error.getD ("undefined")

/-- The `POST /research-and-action` handler (`api.ts` lines 55-211).  The
try/catch is embedded by giving every throwing step an explicit
`Except.error` branch that builds the catch-block reply and, when the
session id is truthy, the `error` event.  The early 400 return for an
empty query happens before any service is created or any event
published. -/
def handler (env : OrchestratorEnv) (genSessionId : String) (body : RequestBody) :
    HandlerOutcome :=
  if body.query = "" then
    { response := Response.badRequest ("Query is required") ("Please provide a research query"),
      events := [], calls := [] }
  else
    let sid := body.sessionId
    let rqSessionId := sessionOr sid genSessionId
    match env.initServices with
    | Except.error msg =>
        { response := Response.serverError ("Research and action workflow failed") msg,
          events := emit sid (EventData.error msg), calls := [] }
    | Except.ok _ =>
        let ev2 := emit sid (EventData.status ("analyzing") ("Analyzing your query...")) ++
          emit sid (EventData.status ("researching") ("Conducting deep research with OpenAI..."))
        match env.generateResearch { query := body.query, sessionId := rqSessionId } with
        | Except.error msg =>
            { response := Response.serverError ("Research and action workflow failed") msg,
              events := ev2 ++ emit sid (EventData.error msg),
              calls := [CollabCall.generateResearch] }
        | Except.ok researchResult =>
            if researchResult.status = ResearchStatus.failed then
              { response := Response.serverError ("Research and action workflow failed")
                  researchResult.findings,
                events := ev2 ++ emit sid (EventData.error researchResult.findings),
                calls := [CollabCall.generateResearch] }
            else
              let ev3 := ev2 ++
                emit sid (EventData.status ("planning") ("Planning GitHub issue creation..."))
              match env.generateIssueContent researchResult.findings body.query with
              | Except.error msg =>
                  { response := Response.serverError ("Research and action workflow failed") msg,
                    events := ev3 ++ emit sid (EventData.error msg),
                    calls := [CollabCall.generateResearch, CollabCall.generateIssueContent] }
              | Except.ok issueContent =>
                  let ev4 := ev3 ++
                    emit sid (EventData.status ("executing") ("Creating GitHub issue..."))
                  let p := parseRepo ((body.githubRepo).getD ("test-repo"))
                  let githubAction := createGitHubIssue env.pica
                    { title := issueContent.title, body := issueContent.body,
                      owner := p.1, repo := p.2 }
                  let actionResults := [githubAction]
                  { response := Response.ok rqSessionId researchResult actionResults
                      { query := body.query,
                        researchCompleted := decide (researchResult.status = ResearchStatus.completed),
                        actionsExecuted := actionResults.length,
                        successfulActions := (actionResults.filter (fun a => a.success)).length,
                        githubIssueUrl :=
                          if githubAction.success then
                            Option.map GitHubIssueInfo.issueUrl githubAction.result
                          else none },
                    events := ev4 ++ emit sid (EventData.complete ("complete")
                      (completionMessage githubAction) researchResult actionResults),
                    calls := [CollabCall.generateResearch, CollabCall.generateIssueContent,
                      CollabCall.createGitHubIssue] }

/-! ## Helper abbreviations and lemmas -/

/-- The `ActionResult` the handler obtains during the EXECUTING step, as a
function of the environment, the issue content and the request descriptor. -/
def executedAction (env : OrchestratorEnv) (c : IssueContent) (githubRepo : Option String) :
    ActionResult :=
  createGitHubIssue env.pica
    { title := c.title, body := c.body,
      owner := (parseRepo (githubRepo.getD ("test-repo"))).1,
      repo := (parseRepo (githubRepo.getD ("test-repo"))).2 }

theorem splitOn_of_not_mem {l : List Char} {sep : Char} (h : sep ∉ l) :
    l.splitOn sep = [l] := by
  apply List.splitOnP_eq_single
  intro x hx hbe
  exact h (by simpa using (beq_iff_eq.mp hbe) ▸ hx)

theorem splitOn_append_sep {l1 l2 : List Char} {sep : Char} (h : sep ∉ l1) :
    (l1 ++ sep :: l2).splitOn sep = l1 :: l2.splitOn sep := by
  apply List.splitOnP_first
  · intro x hx
    simp only [beq_iff_eq]
    intro hxe
    exact h (hxe ▸ hx)
  · simp

theorem jsSplitSlash_pair {owner repo : String}
    (h1 : ('/' : Char) ∉ owner.data) (h2 : ('/' : Char) ∉ repo.data) :
    jsSplitSlash (owner ++ "/" ++ repo) = [owner, repo] := by
  have hdata : (owner ++ "/" ++ repo).data = owner.data ++ '/' :: repo.data := by
    simp [String.data_append]
  rw [jsSplitSlash, hdata, splitOn_append_sep h1, splitOn_of_not_mem h2]
  cases owner
  cases repo
  rfl

theorem jsSplitSlash_single {d : String} (h : ('/' : Char) ∉ d.data) :
    jsSplitSlash d = [d] := by
  rw [jsSplitSlash, splitOn_of_not_mem h]
  cases d
  rfl

theorem append_left_ne_empty {s : String} (t : String) (h : s ≠ "") : s ++ t ≠ "" := by
  intro he
  apply h
  have hd : (s ++ t).data = ("" : String).data := by rw [he]
  rw [String.data_append] at hd
  exact String.ext ((List.append_eq_nil.mp hd).1)

/-! ## Claims -/

/-- Claim C4: `sendSSEUpdate` never raises and never blocks the caller: it
always returns normally (`Except.ok`), when no channel is registered for
the session it leaves the client map untouched, and a failing channel
write is not surfaced (the returned value carries no failure). -/
theorem sendSSEUpdate_never_throws (clients : ClientMap) (sessionId payload : String) :
    (∃ m, sendSSEUpdate clients sessionId payload = Except.ok m) ∧
    (lookupClient clients sessionId = none →
      sendSSEUpdate clients sessionId payload = Except.ok clients) := by
  unfold sendSSEUpdate
  cases h : lookupClient clients sessionId with
  | none => exact ⟨⟨clients, rfl⟩, fun _ => rfl⟩
  | some c =>
      refine ⟨⟨setClient clients sessionId (c.write payload).fst, rfl⟩, fun hn => ?_⟩
      simp [h] at hn

/-- Claim C4 witness: publishing to an unregistered session (with a
failing channel registered under a different id) returns the map
unchanged. -/
theorem sendSSEUpdate_never_throws_witness :
    (∃ m, sendSSEUpdate [("s1", { writeOk := false, written := [] })] ("s2") ("payload") =
      Except.ok m) ∧
    (lookupClient [("s1", { writeOk := false, written := [] })] ("s2") = none →
      sendSSEUpdate [("s1", { writeOk := false, written := [] })] ("s2") ("payload") =
        Except.ok [("s1", { writeOk := false, written := [] })]) :=
  sendSSEUpdate_never_throws [("s1", { writeOk := false, written := [] })] ("s2") ("payload")

/-- Claim C5: a request with an empty query is answered with the 400
validation reply; no collaborator is invoked and no event is published. -/
theorem empty_query_rejected (env : OrchestratorEnv) (genSessionId : String)
    (sid githubRepo : Option String) :
    handler env genSessionId { query := "", sessionId := sid, githubRepo := githubRepo } =
      { response := Response.badRequest ("Query is required") ("Please provide a research query"),
        events := [], calls := [] } ∧
    (handler env genSessionId
        { query := "", sessionId := sid, githubRepo := githubRepo }).response.statusCode = 400 := by
  constructor <;> rfl

/-- Claim C10: when the request body omits the session id, no event of any
type is published during the run, and the generated identifier appears
only in the success reply (the other replies carry no session id). -/
theorem omitted_session_publishes_nothing (env : OrchestratorEnv)
    (genSessionId query : String) (githubRepo : Option String) :
    (handler env genSessionId
        { query := query, sessionId := none, githubRepo := githubRepo }).events = [] ∧
    ((handler env genSessionId
        { query := query, sessionId := none, githubRepo := githubRepo }).response.sessionId? = none ∨
     (handler env genSessionId
        { query := query, sessionId := none, githubRepo := githubRepo }).response.sessionId? =
        some genSessionId) := by
  unfold handler
  by_cases hq : query = ""
  · simp [hq, Response.sessionId?]
  · simp only [hq, if_neg, ite_false]
    cases env.initServices with
    | error msg => simp [emit, Response.sessionId?]
    | ok u =>
        cases env.generateResearch { query := query, sessionId := sessionOr none genSessionId } with
        | error msg => simp [emit, Response.sessionId?]
        | ok researchResult =>
            by_cases hst : researchResult.status = ResearchStatus.failed
            · simp [hst, emit, Response.sessionId?]
            · simp only [hst, ite_false, if_neg]
              cases env.generateIssueContent researchResult.findings query with
              | error msg => simp [emit, Response.sessionId?]
              | ok issueContent => simp [emit, Response.sessionId?, sessionOr]

/-- Claim C1: for a non-empty query with a supplied (truthy) session id,
when service creation and both collaborator calls succeed, the events
published to that session are exactly, in order: `status/analyzing`,
`status/researching`, `status/planning`, `status/executing`, `complete` —
nothing skipped, reordered or repeated. -/
theorem success_path_event_order (env : OrchestratorEnv) (genSessionId s query : String)
    (githubRepo : Option String) (r : ResearchResult) (c : IssueContent)
    (hq : query ≠ "") (hs : s ≠ "")
    (hinit : env.initServices = Except.ok ())
    (hres : env.generateResearch { query := query, sessionId := s } = Except.ok r)
    (hst : r.status ≠ ResearchStatus.failed)
    (hcontent : env.generateIssueContent r.findings query = Except.ok c) :
    (handler env genSessionId
        { query := query, sessionId := some s, githubRepo := githubRepo }).events =
      [(s, EventData.status ("analyzing") ("Analyzing your query...")),
       (s, EventData.status ("researching") ("Conducting deep research with OpenAI...")),
       (s, EventData.status ("planning") ("Planning GitHub issue creation...")),
       (s, EventData.status ("executing") ("Creating GitHub issue...")),
       (s, EventData.complete ("complete") (completionMessage (executedAction env c githubRepo))
          r [executedAction env c githubRepo])] := by
  unfold handler
  simp [hq, hs, sessionOr, hinit, hres, hst, hcontent, emit, executedAction]

/-- Claim C1 witness: the concrete success scenario with query
`Research X`, session `s1` and descriptor `acme/widgets`. -/
theorem success_path_event_order_witness :
    (handler
        { initServices := Except.ok (),
          generateResearch := fun _ => Except.ok
            { id := "r1", query := "Research X", findings := "F",
              status := ResearchStatus.completed },
          generateIssueContent := fun _ _ => Except.ok { title := "T", body := "B" },
          pica := { conn := ConnLookupOutcome.rows [{ key := "k1", platform := "github" }],
                    postIssue := fun _ => Except.ok { html_url := "http://issue", number := 7 } } }
        ("g1") { query := "Research X", sessionId := some ("s1"),
                 githubRepo := some ("acme/widgets") }).events =
      [("s1", EventData.status ("analyzing") ("Analyzing your query...")),
       ("s1", EventData.status ("researching") ("Conducting deep research with OpenAI...")),
       ("s1", EventData.status ("planning") ("Planning GitHub issue creation...")),
       ("s1", EventData.status ("executing") ("Creating GitHub issue...")),
       ("s1", EventData.complete ("complete")
          (completionMessage (executedAction
            { initServices := Except.ok (),
              generateResearch := fun _ => Except.ok
                { id := "r1", query := "Research X", findings := "F",
                  status := ResearchStatus.completed },
              generateIssueContent := fun _ _ => Except.ok { title := "T", body := "B" },
              pica := { conn := ConnLookupOutcome.rows [{ key := "k1", platform := "github" }],
                        postIssue := fun _ => Except.ok { html_url := "http://issue", number := 7 } } }
            { title := "T", body := "B" } (some ("acme/widgets"))))
          { id := "r1", query := "Research X", findings := "F",
            status := ResearchStatus.completed }
          [executedAction
            { initServices := Except.ok (),
              generateResearch := fun _ => Except.ok
                { id := "r1", query := "Research X", findings := "F",
                  status := ResearchStatus.completed },
              generateIssueContent := fun _ _ => Except.ok { title := "T", body := "B" },
              pica := { conn := ConnLookupOutcome.rows [{ key := "k1", platform := "github" }],
                        postIssue := fun _ => Except.ok { html_url := "http://issue", number := 7 } } }
            { title := "T", body := "B" } (some ("acme/widgets"))])] :=
  success_path_event_order _ _ _ _ _ _ _
    (by decide) (by decide) rfl rfl (by decide) rfl

/-- Claim C2: when the run reaches EXECUTING and the issue-creation action
returns a failed `ActionResult`, the synchronous reply still has
`success = true`, contains that failed result as the single action, and
its summary reports zero successful actions and a null issue URL. -/
theorem failed_action_successful_response (env : OrchestratorEnv)
    (genSessionId query : String) (sid githubRepo : Option String)
    (r : ResearchResult) (c : IssueContent)
    (hq : query ≠ "")
    (hinit : env.initServices = Except.ok ())
    (hres : env.generateResearch
      { query := query, sessionId := sessionOr sid genSessionId } = Except.ok r)
    (hst : r.status ≠ ResearchStatus.failed)
    (hcontent : env.generateIssueContent r.findings query = Except.ok c)
    (hfail : (executedAction env c githubRepo).success = false) :
    (handler env genSessionId
        { query := query, sessionId := sid, githubRepo := githubRepo }).response.success =
      some true ∧
    (handler env genSessionId
        { query := query, sessionId := sid, githubRepo := githubRepo }).response.actions? =
      some [executedAction env c githubRepo] ∧
    (executedAction env c githubRepo).success = false ∧
    (handler env genSessionId
        { query := query, sessionId := sid, githubRepo := githubRepo }).response.summary? =
      some { query := query,
             researchCompleted := decide (r.status = ResearchStatus.completed),
             actionsExecuted := 1, successfulActions := 0, githubIssueUrl := none } := by
  have hf : (createGitHubIssue env.pica
      { title := c.title, body := c.body,
        owner := (parseRepo (githubRepo.getD ("test-repo"))).1,
        repo := (parseRepo (githubRepo.getD ("test-repo"))).2 }).success = false := hfail
  unfold handler
  simp [hq, hinit, hres, hst, hcontent, executedAction, hf,
    Response.success, Response.actions?, Response.summary?]

/-- Claim C2 witness: a run whose Pica environment has no GitHub
connection, so the action fails while the workflow succeeds. -/
theorem failed_action_successful_response_witness :
    (handler
        { initServices := Except.ok (),
          generateResearch := fun _ => Except.ok
            { id := "r1", query := "q", findings := "F", status := ResearchStatus.completed },
          generateIssueContent := fun _ _ => Except.ok { title := "T", body := "B" },
          pica := { conn := ConnLookupOutcome.rows [],
                    postIssue := fun _ => Except.ok { html_url := "u", number := 1 } } }
        ("g1") { query := "q", sessionId := some ("s1"),
                 githubRepo := some ("acme/widgets") }).response.success = some true ∧
    (handler
        { initServices := Except.ok (),
          generateResearch := fun _ => Except.ok
            { id := "r1", query := "q", findings := "F", status := ResearchStatus.completed },
          generateIssueContent := fun _ _ => Except.ok { title := "T", body := "B" },
          pica := { conn := ConnLookupOutcome.rows [],
                    postIssue := fun _ => Except.ok { html_url := "u", number := 1 } } }
        ("g1") { query := "q", sessionId := some ("s1"),
                 githubRepo := some ("acme/widgets") }).response.actions? =
      some [executedAction
        { initServices := Except.ok (),
          generateResearch := fun _ => Except.ok
            { id := "r1", query := "q", findings := "F", status := ResearchStatus.completed },
          generateIssueContent := fun _ _ => Except.ok { title := "T", body := "B" },
          pica := { conn := ConnLookupOutcome.rows [],
                    postIssue := fun _ => Except.ok { html_url := "u", number := 1 } } }
        { title := "T", body := "B" } (some ("acme/widgets"))] ∧
    (executedAction
        { initServices := Except.ok (),
          generateResearch := fun _ => Except.ok
            { id := "r1", query := "q", findings := "F", status := ResearchStatus.completed },
          generateIssueContent := fun _ _ => Except.ok { title := "T", body := "B" },
          pica := { conn := ConnLookupOutcome.rows [],
                    postIssue := fun _ => Except.ok { html_url := "u", number := 1 } } }
        { title := "T", body := "B" } (some ("acme/widgets"))).success = false ∧
    (handler
        { initServices := Except.ok (),
          generateResearch := fun _ => Except.ok
            { id := "r1", query := "q", findings := "F", status := ResearchStatus.completed },
          generateIssueContent := fun _ _ => Except.ok { title := "T", body := "B" },
          pica := { conn := ConnLookupOutcome.rows [],
                    postIssue := fun _ => Except.ok { html_url := "u", number := 1 } } }
        ("g1") { query := "q", sessionId := some ("s1"),
                 githubRepo := some ("acme/widgets") }).response.summary? =
      some { query := "q", researchCompleted := true, actionsExecuted := 1,
             successfulActions := 0, githubIssueUrl := none } :=
  failed_action_successful_response _ _ _ _ _ _ _
    (by decide) rfl rfl (by decide) rfl (by decide)

/-- Claim C3: for every run with a truthy session id and a non-empty query
(so the workflow actually starts), exactly one terminal event — a
`complete` or an `error`, never both — is published, and it is the last
event published. -/
theorem exactly_one_terminal_event (env : OrchestratorEnv) (genSessionId s query : String)
    (githubRepo : Option String) (hq : query ≠ "") (hs : s ≠ "") :
    ((handler env genSessionId
        { query := query, sessionId := some s, githubRepo := githubRepo }).events.filter
      (fun p => p.2.isTerminal)).length = 1 ∧
    Option.map (fun p : String × EventData => p.2.isTerminal)
      (handler env genSessionId
        { query := query, sessionId := some s, githubRepo := githubRepo }).events.getLast? =
      some true := by
  unfold handler
  simp only [hq, ite_false, if_neg]
  cases env.initServices with
  | error msg => simp [emit, hs, EventData.isTerminal]
  | ok u =>
      cases env.generateResearch { query := query, sessionId := sessionOr (some s) genSessionId } with
      | error msg => simp [emit, hs, EventData.isTerminal]
      | ok researchResult =>
          by_cases hst : researchResult.status = ResearchStatus.failed
          · simp [hst, emit, hs, EventData.isTerminal]
          · simp only [hst, ite_false, if_neg]
            cases env.generateIssueContent researchResult.findings query with
            | error msg => simp [emit, hs, EventData.isTerminal]
            | ok issueContent => simp [emit, hs, EventData.isTerminal]

/-- Claim C3 witness: the failing-research run publishes exactly one
terminal event, in last position. -/
theorem exactly_one_terminal_event_witness :
    ((handler
        { initServices := Except.ok (),
          generateResearch := fun _ => Except.ok
            { id := "r1", query := "q", findings := "upstream unavailable",
              status := ResearchStatus.failed },
          generateIssueContent := fun _ _ => Except.ok { title := "T", body := "B" },
          pica := { conn := ConnLookupOutcome.rows [],
                    postIssue := fun _ => Except.ok { html_url := "u", number := 1 } } }
        ("g1") { query := "q", sessionId := some ("s1"),
                 githubRepo := none }).events.filter
      (fun p => p.2.isTerminal)).length = 1 ∧
    Option.map (fun p : String × EventData => p.2.isTerminal)
      (handler
        { initServices := Except.ok (),
          generateResearch := fun _ => Except.ok
            { id := "r1", query := "q", findings := "upstream unavailable",
              status := ResearchStatus.failed },
          generateIssueContent := fun _ _ => Except.ok { title := "T", body := "B" },
          pica := { conn := ConnLookupOutcome.rows [],
                    postIssue := fun _ => Except.ok { html_url := "u", number := 1 } } }
        ("g1") { query := "q", sessionId := some ("s1"),
                 githubRepo := none }).events.getLast? = some true := by
  refine exactly_one_terminal_event _ _ _ _ _ ?_ ?_ <;> decide

/-- Claim C6: when the research collaborator returns a `failed` result,
the workflow fails with the findings text as the error details: the reply
is the 500 catch-block reply with `success = false` and `details` equal to
the findings, and the published events are exactly `status/analyzing`,
`status/researching` and then a single `error` event carrying the findings
text — no planning, executing or complete event follows. -/
theorem failed_research_terminates_with_error (env : OrchestratorEnv)
    (genSessionId s query : String) (githubRepo : Option String) (r : ResearchResult)
    (hq : query ≠ "") (hs : s ≠ "")
    (hinit : env.initServices = Except.ok ())
    (hres : env.generateResearch { query := query, sessionId := s } = Except.ok r)
    (hst : r.status = ResearchStatus.failed) :
    (handler env genSessionId
        { query := query, sessionId := some s, githubRepo := githubRepo }).response =
      Response.serverError ("Research and action workflow failed") r.findings ∧
    (handler env genSessionId
        { query := query, sessionId := some s, githubRepo := githubRepo }).response.success =
      some false ∧
    (handler env genSessionId
        { query := query, sessionId := some s, githubRepo := githubRepo }).response.statusCode =
      500 ∧
    (handler env genSessionId
        { query := query, sessionId := some s, githubRepo := githubRepo }).events =
      [(s, EventData.status ("analyzing") ("Analyzing your query...")),
       (s, EventData.status ("researching") ("Conducting deep research with OpenAI...")),
       (s, EventData.error r.findings)] := by
  unfold handler
  simp [hq, hs, sessionOr, hinit, hres, hst, emit, Response.success, Response.statusCode]

/-- Claim C6 witness: the `upstream unavailable` scenario from the spec. -/
theorem failed_research_terminates_with_error_witness :
    (handler
        { initServices := Except.ok (),
          generateResearch := fun _ => Except.ok
            { id := "r1", query := "q", findings := "upstream unavailable",
              status := ResearchStatus.failed },
          generateIssueContent := fun _ _ => Except.ok { title := "T", body := "B" },
          pica := { conn := ConnLookupOutcome.rows [],
                    postIssue := fun _ => Except.ok { html_url := "u", number := 1 } } }
        ("g1") { query := "q", sessionId := some ("s1"), githubRepo := none }).response =
      Response.serverError ("Research and action workflow failed") ("upstream unavailable") ∧
    (handler
        { initServices := Except.ok (),
          generateResearch := fun _ => Except.ok
            { id := "r1", query := "q", findings := "upstream unavailable",
              status := ResearchStatus.failed },
          generateIssueContent := fun _ _ => Except.ok { title := "T", body := "B" },
          pica := { conn := ConnLookupOutcome.rows [],
                    postIssue := fun _ => Except.ok { html_url := "u", number := 1 } } }
        ("g1") { query := "q", sessionId := some ("s1"), githubRepo := none }).response.success =
      some false ∧
    (handler
        { initServices := Except.ok (),
          generateResearch := fun _ => Except.ok
            { id := "r1", query := "q", findings := "upstream unavailable",
              status := ResearchStatus.failed },
          generateIssueContent := fun _ _ => Except.ok { title := "T", body := "B" },
          pica := { conn := ConnLookupOutcome.rows [],
                    postIssue := fun _ => Except.ok { html_url := "u", number := 1 } } }
        ("g1") { query := "q", sessionId := some ("s1"),
                 githubRepo := none }).response.statusCode = 500 ∧
    (handler
        { initServices := Except.ok (),
          generateResearch := fun _ => Except.ok
            { id := "r1", query := "q", findings := "upstream unavailable",
              status := ResearchStatus.failed },
          generateIssueContent := fun _ _ => Except.ok { title := "T", body := "B" },
          pica := { conn := ConnLookupOutcome.rows [],
                    postIssue := fun _ => Except.ok { html_url := "u", number := 1 } } }
        ("g1") { query := "q", sessionId := some ("s1"), githubRepo := none }).events =
      [("s1", EventData.status ("analyzing") ("Analyzing your query...")),
       ("s1", EventData.status ("researching") ("Conducting deep research with OpenAI...")),
       ("s1", EventData.error ("upstream unavailable"))] := by
  refine failed_research_terminates_with_error _ _ _ _ _
    { id := "r1", query := "q", findings := "upstream unavailable",
      status := ResearchStatus.failed } ?_ ?_ ?_ ?_ ?_ <;>
    first | rfl | decide

/-- Claim C7: the repository-descriptor parse.  A descriptor of the form
`owner/repo` (both parts non-empty and slash-free) yields that owner and
repo, and on a successful issue creation the `repository` field of the
result equals the original descriptor; a descriptor containing no slash
yields the placeholder owner `your-username` with the whole string as repo
name; an absent descriptor makes the handler behave exactly as if the
configured default `test-repo` had been supplied, which parses to the
default repository name. -/
theorem repo_descriptor_parse (owner repo d title body key : String) (env : PicaEnv)
    (rest : List ConnectionRow) (resp : PostIssueResponse) :
    ((('/' : Char) ∉ owner.data) → (('/' : Char) ∉ repo.data) → repo ≠ "" →
      parseRepo (owner ++ "/" ++ repo) = (owner, repo) ∧
      (env.conn = ConnLookupOutcome.rows ({ key := key, platform := "github" } :: rest) →
       key ≠ "mcp-fallback" →
       env.postIssue { title := title, body := body, owner := owner, repo := repo } =
         Except.ok resp →
       Option.map GitHubIssueInfo.repository
         (createGitHubIssue env
           { title := title, body := body, owner := owner, repo := repo }).result =
         some (owner ++ "/" ++ repo))) ∧
    ((('/' : Char) ∉ d.data) → parseRepo d = ("your-username", d)) ∧
    parseRepo ("test-repo") = ("your-username", "test-repo") ∧
    (∀ (oenv : OrchestratorEnv) (genSessionId query : String) (sid : Option String),
      handler oenv genSessionId { query := query, sessionId := sid, githubRepo := none } =
        handler oenv genSessionId
          { query := query, sessionId := sid, githubRepo := some ("test-repo") }) := by
  refine ⟨fun h1 h2 hrne => ⟨?_, fun hconn hkey hpost => ?_⟩, fun hd => ?_, by decide,
    fun oenv genSessionId query sid => rfl⟩
  · unfold parseRepo
    rw [jsSplitSlash_pair h1 h2]
    simp [hrne]
  · unfold createGitHubIssue
    rw [hconn]
    simp only [getGitHubConnection]
    rw [if_neg hkey, hpost]
    simp
  · unfold parseRepo
    rw [jsSplitSlash_single hd]
    simp

/-- Claim C7 witness: `acme/widgets` parses to owner `acme` and repo
`widgets` and round-trips through a successful issue creation; the
slash-free descriptor `docs` gets the placeholder owner; the default
descriptor parses to `test-repo`. -/
theorem repo_descriptor_parse_witness :
    parseRepo ("acme" ++ "/" ++ "widgets") = ("acme", "widgets") ∧
    Option.map GitHubIssueInfo.repository
      (createGitHubIssue
        { conn := ConnLookupOutcome.rows [{ key := "k1", platform := "github" }],
          postIssue := fun _ => Except.ok { html_url := "u", number := 1 } }
        { title := "T", body := "B", owner := "acme", repo := "widgets" }).result =
      some ("acme" ++ "/" ++ "widgets") ∧
    parseRepo ("docs") = ("your-username", "docs") ∧
    parseRepo ("test-repo") = ("your-username", "test-repo") := by
  have h := repo_descriptor_parse ("acme") ("widgets") ("docs") ("T") ("B") ("k1")
    { conn := ConnLookupOutcome.rows [{ key := "k1", platform := "github" }],
      postIssue := fun _ => Except.ok { html_url := "u", number := 1 } }
    [] { html_url := "u", number := 1 }
  have ha := h.1 (by decide) (by decide) (by decide)
  exact ⟨ha.1, ha.2 rfl (by decide) rfl, h.2.1 (by decide), h.2.2.1⟩

/-- Claim C8: on the success path the terminal `complete` event and the
synchronous reply agree: the event carries the same `ResearchResult` and
the same action list as the reply, and the reply additionally carries the
derived summary (action counts and the issue URL of a successful action,
null otherwise). -/
theorem complete_event_matches_response (env : OrchestratorEnv)
    (genSessionId s query : String) (githubRepo : Option String)
    (r : ResearchResult) (c : IssueContent)
    (hq : query ≠ "") (hs : s ≠ "")
    (hinit : env.initServices = Except.ok ())
    (hres : env.generateResearch { query := query, sessionId := s } = Except.ok r)
    (hst : r.status ≠ ResearchStatus.failed)
    (hcontent : env.generateIssueContent r.findings query = Except.ok c) :
    (handler env genSessionId
        { query := query, sessionId := some s, githubRepo := githubRepo }).events.getLast? =
      some (s, EventData.complete ("complete")
        (completionMessage (executedAction env c githubRepo)) r
        [executedAction env c githubRepo]) ∧
    (handler env genSessionId
        { query := query, sessionId := some s, githubRepo := githubRepo }).response =
      Response.ok s r [executedAction env c githubRepo]
        { query := query,
          researchCompleted := decide (r.status = ResearchStatus.completed),
          actionsExecuted := 1,
          successfulActions := if (executedAction env c githubRepo).success then 1 else 0,
          githubIssueUrl :=
            if (executedAction env c githubRepo).success then
              Option.map GitHubIssueInfo.issueUrl (executedAction env c githubRepo).result
            else none } := by
  unfold handler
  have ha : (createGitHubIssue env.pica
      { title := c.title, body := c.body,
        owner := (parseRepo (githubRepo.getD ("test-repo"))).1,
        repo := (parseRepo (githubRepo.getD ("test-repo"))).2 }) =
      executedAction env c githubRepo := rfl
  simp [hq, hs, sessionOr, hinit, hres, hst, hcontent, emit, ha, List.filter]
  cases hb : (executedAction env c githubRepo).success <;> simp [hb]

/-- Claim C8 witness: the success scenario, where the complete event and
the reply share the research result and the single successful action. -/
theorem complete_event_matches_response_witness :
    (handler
        { initServices := Except.ok (),
          generateResearch := fun _ => Except.ok
            { id := "r1", query := "Research X", findings := "F",
              status := ResearchStatus.completed },
          generateIssueContent := fun _ _ => Except.ok { title := "T", body := "B" },
          pica := { conn := ConnLookupOutcome.rows [{ key := "k1", platform := "github" }],
                    postIssue := fun _ => Except.ok { html_url := "http://issue", number := 7 } } }
        ("g1") { query := "Research X", sessionId := some ("s1"),
                 githubRepo := some ("acme/widgets") }).events.getLast? =
      some ("s1", EventData.complete ("complete")
        (completionMessage (executedAction
          { initServices := Except.ok (),
            generateResearch := fun _ => Except.ok
              { id := "r1", query := "Research X", findings := "F",
                status := ResearchStatus.completed },
            generateIssueContent := fun _ _ => Except.ok { title := "T", body := "B" },
            pica := { conn := ConnLookupOutcome.rows [{ key := "k1", platform := "github" }],
                      postIssue := fun _ => Except.ok { html_url := "http://issue", number := 7 } } }
          { title := "T", body := "B" } (some ("acme/widgets"))))
        { id := "r1", query := "Research X", findings := "F",
          status := ResearchStatus.completed }
        [executedAction
          { initServices := Except.ok (),
            generateResearch := fun _ => Except.ok
              { id := "r1", query := "Research X", findings := "F",
                status := ResearchStatus.completed },
            generateIssueContent := fun _ _ => Except.ok { title := "T", body := "B" },
            pica := { conn := ConnLookupOutcome.rows [{ key := "k1", platform := "github" }],
                      postIssue := fun _ => Except.ok { html_url := "http://issue", number := 7 } } }
          { title := "T", body := "B" } (some ("acme/widgets"))]) ∧
    (handler
        { initServices := Except.ok (),
          generateResearch := fun _ => Except.ok
            { id := "r1", query := "Research X", findings := "F",
              status := ResearchStatus.completed },
          generateIssueContent := fun _ _ => Except.ok { title := "T", body := "B" },
          pica := { conn := ConnLookupOutcome.rows [{ key := "k1", platform := "github" }],
                    postIssue := fun _ => Except.ok { html_url := "http://issue", number := 7 } } }
        ("g1") { query := "Research X", sessionId := some ("s1"),
                 githubRepo := some ("acme/widgets") }).response =
      Response.ok ("s1")
        { id := "r1", query := "Research X", findings := "F",
          status := ResearchStatus.completed }
        [executedAction
          { initServices := Except.ok (),
            generateResearch := fun _ => Except.ok
              { id := "r1", query := "Research X", findings := "F",
                status := ResearchStatus.completed },
            generateIssueContent := fun _ _ => Except.ok { title := "T", body := "B" },
            pica := { conn := ConnLookupOutcome.rows [{ key := "k1", platform := "github" }],
                      postIssue := fun _ => Except.ok { html_url := "http://issue", number := 7 } } }
          { title := "T", body := "B" } (some ("acme/widgets"))]
        { query := "Research X", researchCompleted := true, actionsExecuted := 1,
          successfulActions :=
            if (executedAction
              { initServices := Except.ok (),
                generateResearch := fun _ => Except.ok
                  { id := "r1", query := "Research X", findings := "F",
                    status := ResearchStatus.completed },
                generateIssueContent := fun _ _ => Except.ok { title := "T", body := "B" },
                pica := { conn := ConnLookupOutcome.rows [{ key := "k1", platform := "github" }],
                          postIssue := fun _ => Except.ok { html_url := "http://issue", number := 7 } } }
              { title := "T", body := "B" } (some ("acme/widgets"))).success then 1 else 0,
          githubIssueUrl :=
            if (executedAction
              { initServices := Except.ok (),
                generateResearch := fun _ => Except.ok
                  { id := "r1", query := "Research X", findings := "F",
                    status := ResearchStatus.completed },
                generateIssueContent := fun _ _ => Except.ok { title := "T", body := "B" },
                pica := { conn := ConnLookupOutcome.rows [{ key := "k1", platform := "github" }],
                          postIssue := fun _ => Except.ok { html_url := "http://issue", number := 7 } } }
              { title := "T", body := "B" } (some ("acme/widgets"))).success then
              Option.map GitHubIssueInfo.issueUrl (executedAction
                { initServices := Except.ok (),
                  generateResearch := fun _ => Except.ok
                    { id := "r1", query := "Research X", findings := "F",
                      status := ResearchStatus.completed },
                  generateIssueContent := fun _ _ => Except.ok { title := "T", body := "B" },
                  pica := { conn := ConnLookupOutcome.rows [{ key := "k1", platform := "github" }],
                            postIssue := fun _ => Except.ok { html_url := "http://issue", number := 7 } } }
                { title := "T", body := "B" } (some ("acme/widgets"))).result
            else none } := by
  refine complete_event_matches_response _ _ _ _ _
    { id := "r1", query := "Research X", findings := "F", status := ResearchStatus.completed }
    { title := "T", body := "B" } ?_ ?_ ?_ ?_ ?_ ?_ <;> first | rfl | decide

theorem catchErrorMessage_ne_empty (params : IssueParams) (e : AxiosFailure)
    (h : ∀ m, e = AxiosFailure.generic m → m ≠ "") :
    catchErrorMessage params e ≠ "" := by
  unfold catchErrorMessage
  split
  · decide
  · exact append_left_ne_empty _ (append_left_ne_empty _
      (append_left_ne_empty _ (append_left_ne_empty _ (by decide))))
  · exact append_left_ne_empty _ (append_left_ne_empty _
      (append_left_ne_empty _ (by decide)))
  · decide
  · exact h _ rfl

/-- Claim C9 counterexample: when the passthrough POST rejects with an
error that has neither a response nor a request and whose own message is
the empty string (the final `else` of the catch block copies
`error.message` verbatim), the returned failed `ActionResult` carries the
empty string as its error description — not a non-empty one. -/
theorem createGitHubIssue_empty_error_description :
    (createGitHubIssue
      { conn := ConnLookupOutcome.rows [{ key := "k1", platform := "github" }],
        postIssue := fun _ => Except.error (AxiosFailure.generic ("")) }
      { title := "T", body := "B", owner := "acme", repo := "widgets" }).success = false ∧
    (createGitHubIssue
      { conn := ConnLookupOutcome.rows [{ key := "k1", platform := "github" }],
        postIssue := fun _ => Except.error (AxiosFailure.generic ("")) }
      { title := "T", body := "B", owner := "acme", repo := "widgets" }).error =
      some ("") := by
  decide

/-- Claim C9 (amended): `createGitHubIssue` is a total function — it
always returns an `ActionResult` — and exactly one of `result` and
`error` is populated, gated by `success`; the failure description is
non-empty provided the underlying client never rejects with a
response-less, request-less error whose own message is empty (in that one
case the empty message is copied verbatim). -/
theorem createGitHubIssue_gated_result_error (env : PicaEnv) (params : IssueParams) :
    ((createGitHubIssue env params).success = true →
      (createGitHubIssue env params).error = none ∧
      ∃ i, (createGitHubIssue env params).result = some i) ∧
    ((createGitHubIssue env params).success = false →
      (createGitHubIssue env params).result = none ∧
      ∃ m, (createGitHubIssue env params).error = some m) ∧
    ((∀ m, env.postIssue params = Except.error (AxiosFailure.generic m) → m ≠ "") →
      (createGitHubIssue env params).success = false →
      ∃ m, (createGitHubIssue env params).error = some m ∧ m ≠ "") := by
  unfold createGitHubIssue
  split
  · exact ⟨fun h => by simp at h, fun _ => ⟨rfl, _, rfl⟩, fun _ _ => ⟨_, rfl, by decide⟩⟩
  · split_ifs with hk
    · exact ⟨fun h => by simp at h, fun _ => ⟨rfl, _, rfl⟩, fun _ _ => ⟨_, rfl, by decide⟩⟩
    · split
      · exact ⟨fun _ => ⟨rfl, _, rfl⟩, fun h => by simp at h, fun _ h => by simp at h⟩
      · rename_i e heq
        refine ⟨fun h => by simp at h, fun _ => ⟨rfl, _, rfl⟩, fun hne _ => ⟨_, rfl, ?_⟩⟩
        exact catchErrorMessage_ne_empty params e (fun m hm => hne m (by rw [heq, hm]))

/-- Claim C9 witness: a successful creation populates `result` and no
`error`; a 404 rejection under the non-empty-message proviso populates a
non-empty `error` and no `result`. -/
theorem createGitHubIssue_gated_result_error_witness :
    (((createGitHubIssue
        { conn := ConnLookupOutcome.rows [{ key := "k1", platform := "github" }],
          postIssue := fun _ => Except.ok { html_url := "u", number := 1 } }
        { title := "T", body := "B", owner := "acme", repo := "widgets" }).success = true →
      (createGitHubIssue
        { conn := ConnLookupOutcome.rows [{ key := "k1", platform := "github" }],
          postIssue := fun _ => Except.ok { html_url := "u", number := 1 } }
        { title := "T", body := "B", owner := "acme", repo := "widgets" }).error = none ∧
      ∃ i, (createGitHubIssue
        { conn := ConnLookupOutcome.rows [{ key := "k1", platform := "github" }],
          postIssue := fun _ => Except.ok { html_url := "u", number := 1 } }
        { title := "T", body := "B", owner := "acme", repo := "widgets" }).result = some i) ∧
     ((createGitHubIssue
        { conn := ConnLookupOutcome.rows [{ key := "k1", platform := "github" }],
          postIssue := fun _ => Except.ok { html_url := "u", number := 1 } }
        { title := "T", body := "B", owner := "acme", repo := "widgets" }).success = false →
      (createGitHubIssue
        { conn := ConnLookupOutcome.rows [{ key := "k1", platform := "github" }],
          postIssue := fun _ => Except.ok { html_url := "u", number := 1 } }
        { title := "T", body := "B", owner := "acme", repo := "widgets" }).result = none ∧
      ∃ m, (createGitHubIssue
        { conn := ConnLookupOutcome.rows [{ key := "k1", platform := "github" }],
          postIssue := fun _ => Except.ok { html_url := "u", number := 1 } }
        { title := "T", body := "B", owner := "acme", repo := "widgets" }).error = some m) ∧
     ((∀ m, (fun _ => Except.ok { html_url := "u", number := 1 } :
          IssueParams → Except AxiosFailure PostIssueResponse)
            { title := "T", body := "B", owner := "acme", repo := "widgets" } =
          Except.error (AxiosFailure.generic m) → m ≠ "") →
      (createGitHubIssue
        { conn := ConnLookupOutcome.rows [{ key := "k1", platform := "github" }],
          postIssue := fun _ => Except.ok { html_url := "u", number := 1 } }
        { title := "T", body := "B", owner := "acme", repo := "widgets" }).success = false →
      ∃ m, (createGitHubIssue
        { conn := ConnLookupOutcome.rows [{ key := "k1", platform := "github" }],
          postIssue := fun _ => Except.ok { html_url := "u", number := 1 } }
        { title := "T", body := "B", owner := "acme", repo := "widgets" }).error =
          some m ∧ m ≠ "")) ∧
    ((createGitHubIssue
        { conn := ConnLookupOutcome.rows [{ key := "k1", platform := "github" }],
          postIssue := fun _ =>
            Except.error (AxiosFailure.response 404 none ("Not Found")) }
        { title := "T", body := "B", owner := "acme", repo := "widgets" }).success = false ∧
     ∃ m, (createGitHubIssue
        { conn := ConnLookupOutcome.rows [{ key := "k1", platform := "github" }],
          postIssue := fun _ =>
            Except.error (AxiosFailure.response 404 none ("Not Found")) }
        { title := "T", body := "B", owner := "acme", repo := "widgets" }).error =
          some m ∧ m ≠ "") := by
  constructor
  · exact createGitHubIssue_gated_result_error
      { conn := ConnLookupOutcome.rows [{ key := "k1", platform := "github" }],
        postIssue := fun _ => Except.ok { html_url := "u", number := 1 } }
      { title := "T", body := "B", owner := "acme", repo := "widgets" }
  · refine ⟨by decide, ?_⟩
    refine (createGitHubIssue_gated_result_error
      { conn := ConnLookupOutcome.rows [{ key := "k1", platform := "github" }],
        postIssue := fun _ =>
          Except.error (AxiosFailure.response 404 none ("Not Found")) }
      { title := "T", body := "B", owner := "acme", repo := "widgets" }).2.2 ?_ (by decide)
    intro m hm
    simp at hm

end ResearchAction
